import Mathlib

/-!
Verification development for the react_dsfr component-library core:
the class-name composer (`cx` / `fr.cx`), the stylesheet vocabulary and the
derived Notice severity set, the per-component i18n registry, the analytics
id allocator, and the Notice / Card component logic.

Functions present in the repository sources (`Notice.tsx`, the compiled
`Card` component) are embedded directly.  Modules that the sources import
but that are not part of the repository snapshot (`./fr`, `./tools/cx`,
`./i18n`, `./tools/useAnalyticsId`) are modelled from the specification;
each such definition carries a doc comment starting with
`Modelled from the spec:`.
-/

/-- Arguments accepted by the class-name composer: a string fragment, a
conditional fragment `token && condition`, a falsy value
(`undefined` / `false` / `null` / `""`), or a nested array of arguments. -/
inductive CxArg where
  | str (s : String)
  | cond (s : String) (b : Bool)
  | falsy
  | nested (args : List CxArg)
deriving Repr

/-- Appending one truthy fragment to the accumulator of the composer loop:
a separating space is inserted only when the accumulator is non-empty. -/
def cxAppendFragment (acc x : String) : String :=
  if acc = "" then x else acc ++ " " ++ x

mutual
/-- Modelled from the spec: the body of the class-name composer `cx` from
`src/tools/cx.ts` (not in the repository snapshot).  It walks the argument
list left to right keeping a string accumulator: a truthy string fragment is
appended (with a single separating space), a fragment whose condition is
false, a falsy value, or an empty string contributes nothing, and a nested
array is walked recursively.  No input is rejected. -/
def cxProcess : String → List CxArg → String
  | acc, [] => acc
  | acc, a :: rest => cxProcess (cxProcessArg acc a) rest

/-- Processing of one composer argument (see `cxProcess`). -/
def cxProcessArg : String → CxArg → String
  | acc, .str s => if s = "" then acc else cxAppendFragment acc s
  | acc, .cond s b => if b then (if s = "" then acc else cxAppendFragment acc s) else acc
  | acc, .falsy => acc
  | acc, .nested args => cxProcess acc args
end

/-- Modelled from the spec: `cx` from `src/tools/cx.ts` (not in the
repository snapshot) — the class-name composer run on a full argument list
with an initially empty accumulator. -/
def cx (args : List CxArg) : String := cxProcess "" args

/-- Modelled from the spec: `fr.cx` from `src/fr.ts` (not in the repository
snapshot) — the same composition as `cx`, restricted at compile time to
stylesheet tokens; at runtime it is the same function. -/
def frCx (args : List CxArg) : String := cx args

mutual
/-- The truthy string fragments contributed by one composer argument, in
order: the specification-side description of what `cx` keeps. -/
def truthyFragments : CxArg → List String
  | .str s => if s = "" then [] else [s]
  | .cond s b => if b then (if s = "" then [] else [s]) else []
  | .falsy => []
  | .nested args => truthyFragmentsList args

/-- The truthy string fragments of an argument list, in argument order. -/
def truthyFragmentsList : List CxArg → List String
  | [] => []
  | a :: rest => truthyFragments a ++ truthyFragmentsList rest
end

/-- Space-joined concatenation of a list of fragments: the specification's
"space-joined string" with a single separator and no normalization. -/
def spaceJoined : List String → String
  | [] => ""
  | [s] => s
  | s :: t :: rest => s ++ " " ++ spaceJoined (t :: rest)

/-- Modelled from the spec: the `FrClassName` stylesheet vocabulary from
`src/fr/generatedFromCss/classNames.ts` (not in the repository snapshot),
restricted to the tokens relevant to the Notice component.  The
`fr-notice--<suffix>` tokens are those the Notice type declarations rely on
(`"info"` is the default severity, `witness`/`kidnapping`/`attack`/
`cyberattack` are the risky-alert severities, `weather-*` the weather
severities, `no-icon` the excluded sentinel); the remaining tokens are the
ones `Notice.tsx` and its close button pass to `fr.cx`. -/
def frClassNames : List String :=
  [ "fr-notice"
  , "fr-notice--info"
  , "fr-notice--warning"
  , "fr-notice--alert"
  , "fr-notice--weather-orange"
  , "fr-notice--weather-red"
  , "fr-notice--weather-purple"
  , "fr-notice--witness"
  , "fr-notice--kidnapping"
  , "fr-notice--attack"
  , "fr-notice--cyberattack"
  , "fr-notice--no-icon"
  , "fr-container"
  , "fr-notice__body"
  , "fr-notice__title"
  , "fr-notice__desc"
  , "fr-notice__link"
  , "fr-btn--close"
  , "fr-btn" ]

/-- The conditional type `ExtractSeverity` of `Notice.tsx` (lines 75-77):
a token of the shape `fr-notice--<severity>` yields its suffix, any other
token yields nothing.  `11` is the character length of `"fr-notice--"`. -/
def extractNoticeSeverity (t : String) : Option String :=
  if t.data.take 11 = "fr-notice--".data then some ⟨t.data.drop 11⟩ else none

/-- `NoticeProps.Severity` of `Notice.tsx` (line 79): the suffixes extracted
from the vocabulary, minus the sentinel suffix `"no-icon"`. -/
def noticeSeverities : List String :=
  (frClassNames.filterMap extractNoticeSeverity).filter (fun s => s != "no-icon")

/-- State of one component's i18n namespace: the base-language message table
registered at creation, and the log of `addTranslations` registrations
(a later registration for the same language shadows an earlier one, the way
assignment to `messagesByLang[lang]` does). -/
structure I18nState where
  base : List (String × String)
  tables : List (String × List (String × String))
deriving Repr, DecidableEq

/-- Modelled from the spec: `createComponentI18nApi` from `src/i18n.tsx`
(not in the repository snapshot) — registers a component's base-language
message table; no additional language is registered yet. -/
def createComponentI18nApi (frMessages : List (String × String)) : I18nState :=
  { base := frMessages, tables := [] }

/-- Modelled from the spec: the `addTranslations` capability returned by
`createComponentI18nApi` (exported from `Notice.tsx` as
`addNoticeTranslations`) — registers a message table for one additional
language; registering the same language again shadows the earlier table. -/
def addTranslations (st : I18nState) (lang : String)
    (messages : List (String × String)) : I18nState :=
  { st with tables := st.tables ++ [(lang, messages)] }

/-- The table registered for a language, the latest registration winning. -/
def lookupLang (tables : List (String × List (String × String)))
    (lang : String) : Option (List (String × String)) :=
  (tables.reverse.find? (fun p => p.1 == lang)).map (fun p => p.2)

/-- The entry of a message table for a key. -/
def lookupKey (tbl : List (String × String)) (key : String) : Option String :=
  (tbl.find? (fun p => p.1 == key)).map (fun p => p.2)

/-- Modelled from the spec: message resolution by the `useTranslation`
capability of `src/i18n.tsx` (not in the repository snapshot) — the key is
looked up in the active language's table, falling back to the base table
when the active language has no table or its table lacks the key. -/
def translateMessage (st : I18nState) (lang key : String) : Option String :=
  match lookupLang st.tables lang with
  | some tbl =>
    match lookupKey tbl key with
    | some v => some v
    | none => lookupKey st.base key
  | none => lookupKey st.base key

/-- The Notice component's i18n namespace exactly as `Notice.tsx`
(lines 237-260) builds it at module load: French base messages, then the
English and Spanish registrations. -/
def noticeI18n : I18nState :=
  addTranslations
    (addTranslations
      (createComponentI18nApi [("hide message", "Masquer le message")])
      "en" [("hide message", "Hide the message")])
    "es" [("hide message", "Occultar el mesage")]

/-- One call of the translation lookup accessor, returning the resolved
message together with the registry state after the call. -/
def useTranslationCall (st : I18nState) (lang key : String) :
    Option String × I18nState :=
  (translateMessage st lang key, st)

/-- Modelled from the spec: `useAnalyticsId` from
`src/tools/useAnalyticsId.ts` (not in the repository snapshot) — an
explicitly provided id is returned unchanged; otherwise the id is the
default prefix, a dash, and the instance's suffix. -/
def useAnalyticsId (idPfx : String) (explicitlyProvidedId : Option String)
    (suffix : Nat) : String :=
  match explicitlyProvidedId with
  | some id => id
  | none => idPfx ++ "-" ++ toString suffix

/-- Process-wide allocator state: the next fresh instance suffix. -/
structure IdAllocator where
  counter : Nat
deriving Repr, DecidableEq

/-- Per-instance memo of the suffix drawn on first use. -/
structure ComponentInstance where
  memoSuffix : Option Nat
deriving Repr, DecidableEq

/-- Modelled from the spec: one call of `useAnalyticsId` for a component
instance — an explicit id passes through; otherwise the instance's memoized
suffix is reused, or a fresh suffix is drawn from the allocator on first
use and memoized. -/
def callUseAnalyticsId (idPfx : String) (explicitlyProvidedId : Option String)
    (inst : ComponentInstance) (alloc : IdAllocator) :
    String × ComponentInstance × IdAllocator :=
  match explicitlyProvidedId with
  | some id => (id, inst, alloc)
  | none =>
    match inst.memoSuffix with
    | some n => (idPfx ++ "-" ++ toString n, inst, alloc)
    | none =>
      (idPfx ++ "-" ++ toString alloc.counter,
        { memoSuffix := some alloc.counter }, { counter := alloc.counter + 1 })

/-- The two state-changing occasions in the dismissible Notice
(`Notice.tsx` lines 124-163): a click on the close button, and the effect
that copies the `isClosed` prop into the state. -/
inductive NoticeEvent where
  | closeButtonClick
  | propsEffect
deriving Repr, DecidableEq

/-- Initial `isClosed` state (`useState(props_isClosed ?? false)`,
`Notice.tsx` line 116). -/
def noticeInitialIsClosed (propsIsClosed : Option Bool) : Bool :=
  propsIsClosed.getD false

/-- `onCloseButtonClick` (`Notice.tsx` lines 152-163): uncontrolled mode
sets the state to closed; controlled mode only notifies `onClose` and
leaves the state unchanged. -/
def onCloseButtonClick (propsIsClosed : Option Bool) (isClosed : Bool) : Bool :=
  match propsIsClosed with
  | none => true
  | some _ => isClosed

/-- The `props_isClosed` effect (`Notice.tsx` lines 124-136): it returns
early when the prop is undefined and otherwise copies the prop into the
state. -/
def noticePropsEffectStep (propsIsClosed : Option Bool) (isClosed : Bool) : Bool :=
  match propsIsClosed with
  | none => isClosed
  | some b => b

/-- One transition of the Notice `isClosed` state. -/
def noticeStep (propsIsClosed : Option Bool) (isClosed : Bool) :
    NoticeEvent → Bool
  | .closeButtonClick => onCloseButtonClick propsIsClosed isClosed
  | .propsEffect => noticePropsEffectStep propsIsClosed isClosed

/-- `Notice.tsx` lines 169-171: a closed notice renders nothing. -/
def noticeRendersNothing (isClosed : Bool) : Bool := isClosed

/-- Render-relevant component state of `Notice`: the `isClosed` state, the
two refs `refShouldButtonGetFocus` and `refShouldSetRole`, whether the close
button is mounted, and whether it holds keyboard focus. -/
structure NoticeComponentState where
  isClosed : Bool
  refShouldButtonGetFocus : Bool
  refShouldSetRole : Bool
  buttonMounted : Bool
  buttonFocused : Bool
deriving Repr, DecidableEq

/-- Mounting the component: state from `useState(props_isClosed ?? false)`,
both refs start false (`Notice.tsx` lines 116-121), and the close button is
mounted exactly when the notice renders and is closable. -/
def noticeMount (propsIsClosed : Option Bool) (isClosable : Bool) :
    NoticeComponentState :=
  let isClosed := propsIsClosed.getD false
  { isClosed := isClosed
    refShouldButtonGetFocus := false
    refShouldSetRole := false
    buttonMounted := !isClosed && isClosable
    buttonFocused := false }

/-- The `props_isClosed` effect (`Notice.tsx` lines 124-136) on the full
component state: when the state was closed and the prop re-opens it, both
refs are raised before the state is overwritten with the prop. -/
def noticeIsClosedEffect (propsIsClosed : Option Bool)
    (s : NoticeComponentState) : NoticeComponentState :=
  match propsIsClosed with
  | none => s
  | some b =>
    if s.isClosed && !b then
      { s with isClosed := b, refShouldButtonGetFocus := true, refShouldSetRole := true }
    else { s with isClosed := b }

/-- Committing a render: the close button is mounted exactly when the
notice renders and is closable; an unmounted button cannot keep focus. -/
def noticeRenderCommit (isClosable : Bool) (s : NoticeComponentState) :
    NoticeComponentState :=
  let mounted := !s.isClosed && isClosable
  { s with buttonMounted := mounted, buttonFocused := s.buttonFocused && mounted }

/-- The `buttonElement` effect (`Notice.tsx` lines 138-150): when the focus
ref is raised and the button is mounted, the ref is lowered and the button
receives focus. -/
def noticeButtonFocusEffect (s : NoticeComponentState) : NoticeComponentState :=
  if s.refShouldButtonGetFocus && s.buttonMounted then
    { s with refShouldButtonGetFocus := false, buttonFocused := true }
  else s

/-- One full update cycle after the `isClosed` prop changes: the prop
effect runs the state update, the component re-renders, and the button
effect runs. -/
def noticeUpdateCycle (isClosable : Bool) (propsIsClosed : Option Bool)
    (s : NoticeComponentState) : NoticeComponentState :=
  noticeButtonFocusEffect (noticeRenderCommit isClosable (noticeIsClosedEffect propsIsClosed s))

/-- What a render of `Notice` produces: whether anything is rendered, and
the `role` attribute of the root element. -/
structure NoticeRenderOutput where
  rendered : Bool
  role : Option String
deriving Repr, DecidableEq

/-- The render of `Notice` (`Notice.tsx` lines 169-189): a closed notice
renders nothing; otherwise the root carries `role="notice"` exactly when
`refShouldSetRole` is raised. -/
def noticeRender (s : NoticeComponentState) : NoticeRenderOutput :=
  if s.isClosed then { rendered := false, role := none }
  else { rendered := true
         role := if s.refShouldSetRole then some "notice" else none }

/-- The `size` prop of the Card component. -/
inductive CardSize where
  | small
  | medium
  | large
deriving Repr, DecidableEq

/-- The size-to-class switch in the compiled Card component
(`next-appdir/DsfrHead.d.ts`, Card root class list): `"large"` yields
`fr-card--lg`, `"small"` yields `fr-card--sm`, `"medium"` yields
`undefined`. -/
def cardSizeCssToken : CardSize → Option String
  | .large => some "fr-card--lg"
  | .small => some "fr-card--sm"
  | .medium => none

/-- The destructuring default `size = "medium"` of the Card component. -/
def cardSizeDefault (size : Option CardSize) : CardSize :=
  size.getD .medium

/-- An optional string as a composer argument: `undefined` is falsy. -/
def optionalCxArg : Option String → CxArg
  | some s => .str s
  | none => .falsy

/-- The argument list the Card component passes to `fr.cx` for its root
element's class list (boolean props as in the source; the optional
`iconId`, `classes.root` and `className` additions omitted, i.e. absent). -/
def cardRootCxArgs (enlargeLink horizontal background border shadow grey : Bool)
    (size : CardSize) : List CxArg :=
  [ .str "fr-card"
  , .cond "fr-enlarge-link" enlargeLink
  , .cond "fr-card--horizontal" horizontal
  , optionalCxArg (cardSizeCssToken size)
  , .cond "fr-card--no-background" (!background)
  , .cond "fr-card--no-border" (!border)
  , .cond "fr-card--shadow" shadow
  , .cond "fr-card--grey" grey ]

theorem cxAppendFragment_of_empty (x : String) : cxAppendFragment "" x = x := by
  simp [cxAppendFragment]

theorem cxAppendFragment_of_ne (acc x : String) (h : acc ≠ "") :
    cxAppendFragment acc x = acc ++ " " ++ x := by
  simp [cxAppendFragment, h]

mutual
theorem cxProcessArg_eq_foldl (acc : String) (a : CxArg) :
    cxProcessArg acc a = (truthyFragments a).foldl cxAppendFragment acc := by
  cases a with
  | str s => by_cases hs : s = "" <;> simp [cxProcessArg, truthyFragments, hs]
  | cond s b => cases b <;> by_cases hs : s = "" <;> simp [cxProcessArg, truthyFragments, hs]
  | falsy => simp [cxProcessArg, truthyFragments]
  | nested args =>
    rw [show cxProcessArg acc (.nested args) = cxProcess acc args from rfl,
      show truthyFragments (.nested args) = truthyFragmentsList args from rfl]
    exact cxProcess_eq_foldl acc args

theorem cxProcess_eq_foldl (acc : String) (args : List CxArg) :
    cxProcess acc args = (truthyFragmentsList args).foldl cxAppendFragment acc := by
  cases args with
  | nil => rfl
  | cons a rest =>
    rw [show cxProcess acc (a :: rest) = cxProcess (cxProcessArg acc a) rest from rfl,
      show truthyFragmentsList (a :: rest) = truthyFragments a ++ truthyFragmentsList rest from rfl,
      List.foldl_append, ← cxProcessArg_eq_foldl acc a]
    exact cxProcess_eq_foldl (cxProcessArg acc a) rest
end

mutual
theorem truthyFragments_not_empty (a : CxArg) :
    ∀ x ∈ truthyFragments a, x ≠ "" := by
  cases a with
  | str s => by_cases hs : s = "" <;> simp [truthyFragments, hs]
  | cond s b => cases b <;> by_cases hs : s = "" <;> simp [truthyFragments, hs]
  | falsy => simp [truthyFragments]
  | nested args =>
    rw [show truthyFragments (.nested args) = truthyFragmentsList args from rfl]
    exact truthyFragmentsList_not_empty args

theorem truthyFragmentsList_not_empty (args : List CxArg) :
    ∀ x ∈ truthyFragmentsList args, x ≠ "" := by
  cases args with
  | nil => simp [truthyFragmentsList]
  | cons a rest =>
    rw [show truthyFragmentsList (a :: rest) = truthyFragments a ++ truthyFragmentsList rest from rfl]
    intro x hx
    rcases List.mem_append.mp hx with h | h
    · exact truthyFragments_not_empty a x h
    · exact truthyFragmentsList_not_empty rest x h
end

theorem append_space_ne_empty (a b : String) : a ++ " " ++ b ≠ "" := by
  intro h
  have h2 := congrArg String.length h
  rw [String.length_append, String.length_append] at h2
  rw [show (" " : String).length = 1 from rfl] at h2
  rw [show ("" : String).length = 0 from rfl] at h2
  omega

theorem foldl_cxAppendFragment_cons (rest : List String) :
    ∀ (t acc : String), acc ≠ "" →
      List.foldl cxAppendFragment acc (t :: rest) = acc ++ " " ++ spaceJoined (t :: rest) := by
  induction rest with
  | nil =>
    intro t acc hacc
    rw [List.foldl_cons, cxAppendFragment_of_ne acc t hacc]
    rfl
  | cons u rest' ih =>
    intro t acc hacc
    rw [List.foldl_cons, cxAppendFragment_of_ne acc t hacc,
      ih u (acc ++ " " ++ t) (append_space_ne_empty acc t),
      show spaceJoined (t :: u :: rest') = t ++ " " ++ spaceJoined (u :: rest') from rfl]
    simp [String.append_assoc]

theorem foldl_cxAppendFragment_of_empty_acc (l : List String)
    (hl : ∀ x ∈ l, x ≠ "") :
    List.foldl cxAppendFragment "" l = spaceJoined l := by
  cases l with
  | nil => rfl
  | cons x rest =>
    have hx : x ≠ "" := hl x (List.mem_cons_self x rest)
    rw [List.foldl_cons, cxAppendFragment_of_empty]
    cases rest with
    | nil => rfl
    | cons t rest' =>
      rw [foldl_cxAppendFragment_cons rest' t x hx]
      rfl

/-- C3: for every argument list of strings, conditional fragments, falsy
values, and nested arrays thereof, the class-name composers `cx` and
`fr.cx` return the space-joined concatenation of exactly the
truthy-condition string fragments in argument order, with falsy entries
dropped silently and duplicates preserved; being total Lean functions they
raise no error on any input. -/
theorem cx_joins_truthy_fragments (args : List CxArg) :
    cx args = spaceJoined (truthyFragmentsList args) ∧
    frCx args = spaceJoined (truthyFragmentsList args) := by
  have h : cx args = spaceJoined (truthyFragmentsList args) := by
    rw [show cx args = cxProcess "" args from rfl, cxProcess_eq_foldl]
    exact foldl_cxAppendFragment_of_empty_acc _ (truthyFragmentsList_not_empty args)
  exact ⟨h, h⟩

theorem extractNoticeSeverity_append (s : String) :
    extractNoticeSeverity ("fr-notice--" ++ s) = some s := by
  unfold extractNoticeSeverity
  rw [String.data_append]
  rw [show (11 : Nat) = "fr-notice--".data.length from rfl]
  rw [List.take_left, List.drop_left]
  simp

/-- C2: the set of severity values the Notice component accepts
(`NoticeProps.Severity`) is exactly the set of suffixes `s` such that
`fr-notice--<s>` is a class name of the stylesheet vocabulary, minus the
sentinel suffix `"no-icon"`; the set is non-empty.  Membership in
`noticeSeverities` is decidable, so a value outside the set is rejected
when the characterization is checked — the embedding of the compile-time
rejection of invalid severities. -/
theorem noticeSeverities_characterize :
    noticeSeverities ≠ [] ∧
    ∀ s : String,
      s ∈ noticeSeverities ↔ (("fr-notice--" ++ s) ∈ frClassNames ∧ s ≠ "no-icon") := by
  refine ⟨by decide, fun s => ⟨fun hs => ?_, fun h => ?_⟩⟩
  · have he : noticeSeverities = ["info", "warning", "alert", "weather-orange",
        "weather-red", "weather-purple", "witness", "kidnapping", "attack",
        "cyberattack"] := by decide
    rw [he] at hs
    fin_cases hs <;> exact ⟨by decide, by decide⟩
  · obtain ⟨hmem, hne⟩ := h
    have h1 : s ∈ frClassNames.filterMap extractNoticeSeverity :=
      List.mem_filterMap.mpr ⟨"fr-notice--" ++ s, hmem, extractNoticeSeverity_append s⟩
    refine List.mem_filter.mpr ⟨h1, ?_⟩
    rw [bne_iff_ne]
    exact hne

/-- Witness for C2: the default severity `"info"` is in the derived set,
and the sentinel `"no-icon"` is rejected. -/
theorem noticeSeverities_characterize_witness :
    "info" ∈ noticeSeverities ∧ "no-icon" ∉ noticeSeverities := by
  constructor
  · exact (noticeSeverities_characterize.2 "info").mpr ⟨by decide, by decide⟩
  · intro h
    exact absurd rfl ((noticeSeverities_characterize.2 "no-icon").mp h).2

/-- Counterexample for C1: the Notice namespace's base messages are the
French ones (`"Masquer le message"`), so looking up `"hide message"` under
the unregistered language `"de"` does not return the English
`"Hide the message"` the claim asserts. -/
theorem noticeTranslation_claim_false :
    ¬(translateMessage noticeI18n "es" "hide message" = some "Occultar el mesage" ∧
      translateMessage noticeI18n "de" "hide message" = some "Hide the message") := by
  decide

/-- C1 (amended): looking up `"hide message"` with active language `"es"`
returns `"Occultar el mesage"`, and with an unregistered language `"de"`
returns the base-language value — which is the French
`"Masquer le message"` registered at namespace creation, not the English
table added by `addNoticeTranslations`; more generally, lookup of a key
absent from the active language's table falls back to the base table's
entry for that key. -/
theorem noticeTranslation_fallback :
    translateMessage noticeI18n "es" "hide message" = some "Occultar el mesage" ∧
    translateMessage noticeI18n "de" "hide message" = lookupKey noticeI18n.base "hide message" ∧
    translateMessage noticeI18n "de" "hide message" = some "Masquer le message" ∧
    ∀ (st : I18nState) (lang key : String),
      (∀ tbl, lookupLang st.tables lang = some tbl → lookupKey tbl key = none) →
      translateMessage st lang key = lookupKey st.base key := by
  refine ⟨by decide, by decide, by decide, fun st lang key h => ?_⟩
  unfold translateMessage
  cases hl : lookupLang st.tables lang with
  | none => rfl
  | some tbl =>
    show (match lookupKey tbl key with
          | some v => some v
          | none => lookupKey st.base key) = lookupKey st.base key
    rw [h tbl hl]

/-- Witness for C1 (amended): the Spanish table has no entry for
`"another key"`, so lookup under `"es"` falls back to the base table. -/
theorem noticeTranslation_fallback_witness :
    translateMessage noticeI18n "es" "another key" = lookupKey noticeI18n.base "another key" :=
  noticeTranslation_fallback.2.2.2 noticeI18n "es" "another key" (by
    intro tbl h
    have he : lookupLang noticeI18n.tables "es" =
        some [("hide message", "Occultar el mesage")] := by decide
    rw [he] at h
    injection h with h2
    subst h2
    decide)

/-- C6: registering translations for the same language twice leaves the
registry resolving to the second table — the later registration shadows
the earlier one, with no guard against duplicate registration. -/
theorem addTranslations_last_wins (st : I18nState) (lang : String)
    (m1 m2 : List (String × String)) :
    lookupLang (addTranslations (addTranslations st lang m1) lang m2).tables lang = some m2 := by
  unfold addTranslations lookupLang
  simp [List.find?_cons]

/-- C8: the translation lookup accessor performs no hidden mutation of the
registry — the state after a call is the state before it, and two calls in
succession for the same key and active language return identical results. -/
theorem useTranslation_pure (st : I18nState) (lang key : String) :
    (useTranslationCall st lang key).2 = st ∧
    (useTranslationCall (useTranslationCall st lang key).2 lang key).1 =
      (useTranslationCall st lang key).1 :=
  ⟨rfl, rfl⟩

/-- C4: for every non-empty explicitly supplied id and every default
prefix, the analytics id allocator returns the supplied id unchanged. -/
theorem useAnalyticsId_explicit (idPfx id : String) (n : Nat) (h : id ≠ "") :
    useAnalyticsId idPfx (some id) n = id := rfl

/-- Witness for C4: the explicit id `"foo"` passes through unchanged under
the default prefix `"fr-notice"`. -/
theorem useAnalyticsId_explicit_witness :
    ("foo" : String) ≠ "" ∧ useAnalyticsId "fr-notice" (some "foo") 0 = "foo" :=
  ⟨by decide, useAnalyticsId_explicit "fr-notice" "foo" 0 (by decide)⟩

/-- C5: with no explicit id, the allocator returns
`<defaultPrefix>-<suffix>`; the suffix is drawn once per component
instance and memoized, so a repeated call for the same instance returns the
same value, while a second, independent instance draws a different
suffix. -/
theorem useAnalyticsId_generated (idPfx : String) (alloc : IdAllocator) :
    (callUseAnalyticsId idPfx none ⟨none⟩ alloc).1 = idPfx ++ "-" ++ toString alloc.counter ∧
    (callUseAnalyticsId idPfx none
        (callUseAnalyticsId idPfx none ⟨none⟩ alloc).2.1
        (callUseAnalyticsId idPfx none ⟨none⟩ alloc).2.2).1 =
      (callUseAnalyticsId idPfx none ⟨none⟩ alloc).1 ∧
    (callUseAnalyticsId idPfx none ⟨none⟩
        (callUseAnalyticsId idPfx none ⟨none⟩ alloc).2.2).1 =
      idPfx ++ "-" ++ toString (alloc.counter + 1) ∧
    ((callUseAnalyticsId idPfx none ⟨none⟩ alloc).2.1).memoSuffix = some alloc.counter ∧
    ((callUseAnalyticsId idPfx none ⟨none⟩
        (callUseAnalyticsId idPfx none ⟨none⟩ alloc).2.2).2.1).memoSuffix =
      some (alloc.counter + 1) ∧
    alloc.counter ≠ alloc.counter + 1 :=
  ⟨rfl, rfl, rfl, rfl, rfl, by omega⟩

/-- C7: the dismissible Notice is a two-state machine over the `isClosed`
flag.  In uncontrolled mode (no `isClosed` prop) the initial state is open,
the close-button click moves open to closed, a closed notice renders
nothing, every event leaves the closed state closed, and the only other
event (the props effect) does not change the open state; in controlled
mode the caller can re-open through the `isClosed` prop. -/
theorem notice_dismiss_machine :
    noticeInitialIsClosed none = false ∧
    noticeStep none false .closeButtonClick = true ∧
    (∀ e : NoticeEvent, noticeStep none true e = true) ∧
    noticeStep none false .propsEffect = false ∧
    noticeRendersNothing true = true ∧
    noticePropsEffectStep (some false) true = false := by
  refine ⟨rfl, rfl, fun e => ?_, rfl, rfl, rfl⟩
  cases e <;> rfl

/-- C9: when a controlled Notice goes from closed (`isClosed` prop true)
back to open, after the update cycle the close button holds keyboard focus
and the root renders with `role="notice"`; on the initial render in the
open state, neither the focus transfer nor the role attribute is
applied. -/
theorem notice_reopen_focus_role :
    (noticeUpdateCycle true (some false) (noticeMount (some true) true)).buttonFocused = true ∧
    noticeRender (noticeUpdateCycle true (some false) (noticeMount (some true) true)) =
      { rendered := true, role := some "notice" } ∧
    (noticeMount (some false) true).buttonFocused = false ∧
    noticeRender (noticeMount (some false) true) = { rendered := true, role := none } := by
  decide

/-- C10: the Card component maps its `size` prop to a stylesheet class as
`"large" ↦ fr-card--lg`, `"small" ↦ fr-card--sm`, while `"medium"` — the
default when `size` is omitted — contributes no size class at all to the
root element's class list, whatever the other boolean props are. -/
theorem cardSize_class_mapping :
    cardSizeCssToken .large = some "fr-card--lg" ∧
    cardSizeCssToken .small = some "fr-card--sm" ∧
    cardSizeCssToken .medium = none ∧
    cardSizeDefault none = .medium ∧
    ∀ (el hz bg bd sh gr : Bool),
      "fr-card--lg" ∉ truthyFragmentsList (cardRootCxArgs el hz bg bd sh gr .medium) ∧
      "fr-card--sm" ∉ truthyFragmentsList (cardRootCxArgs el hz bg bd sh gr .medium) := by
  refine ⟨rfl, rfl, rfl, rfl, fun el hz bg bd sh gr => ?_⟩
  cases el <;> cases hz <;> cases bg <;> cases bd <;> cases sh <;> cases gr <;> decide
